import Mathlib

/-!
Verification development for the vhost-device SCSI target.

The definitions below are a shallow embedding of the Rust sources:

* `src/scsi/src/command.rs` — the CDB parser (operation-code dispatch
  table `OPCODES`, `CommandType::from_opcode_and_sa`,
  `CommandType::cdb_template`, `Cdb::parse`);
* `src/scsi/src/scsi/sense.rs` — `SenseTriple::to_fixed_sense` and the
  sense catalog;
* `src/scsi/src/scsi/mod.rs` — `CmdOutput`, `SilentlyTruncate`, and the
  mapping from `ParseError` to CHECK CONDITION outputs;
* `src/scsi/src/scsi/block_device.rs` — `BlockDevice::execute_command`;
* `src/scsi/src/main.rs` — `VhostUserScsiBackend::handle_request_queue`;
* `src/scsi/src/virtio.rs` — `VirtioScsiLun::parse`,
  `DescriptorChainWriter` (`skip`, `residual`, `write`, `max_written`).

Bytes are modelled as `Nat` values (every byte taken from a buffer is
`< 256` at its use sites; masks and shifts are written out explicitly).
Rust panics (`assert!`, the `hope!` macro, arithmetic underflow on
`u64` subtraction and failing `unwrap`s) are modelled as a distinguished
`.error ()` outcome of `Except Unit`.
-/

/-- Big-endian combination of two bytes (`u16::from_be_bytes`). -/
def be16 (hi lo : Nat) : Nat := hi * 256 + lo

/-- Big-endian combination of four bytes (`u32::from_be_bytes`). -/
def be32 (b0 b1 b2 b3 : Nat) : Nat := ((b0 * 256 + b1) * 256 + b2) * 256 + b3

/-- `SenseTriple` from `scsi/sense.rs`: `(sense_key, asc, ascq)`. -/
structure SenseTriple where
  key : Nat
  asc : Nat
  ascq : Nat
deriving DecidableEq, Repr

/-- `SenseTriple::to_fixed_sense` from `scsi/sense.rs`: the 18-byte
fixed-format sense encoding (response code `0x70`). -/
def SenseTriple.toFixedSense (t : SenseTriple) : List Nat :=
  [0x70, 0x0, t.key,
   0x0, 0x0, 0x0, 0x0,
   0xa,
   0x0, 0x0, 0x0, 0x0,
   t.asc,
   t.ascq,
   0x0,
   0x0, 0x0, 0x0]

/-- `sense::INVALID_COMMAND_OPERATION_CODE` (5/20/00). -/
def INVALID_COMMAND_OPERATION_CODE : SenseTriple := ⟨0x5, 0x20, 0x0⟩

/-- `sense::LOGICAL_BLOCK_ADDRESS_OUT_OF_RANGE` (5/21/00). -/
def LOGICAL_BLOCK_ADDRESS_OUT_OF_RANGE : SenseTriple := ⟨0x5, 0x21, 0x0⟩

/-- `sense::INVALID_FIELD_IN_CDB` (5/24/00). -/
def INVALID_FIELD_IN_CDB : SenseTriple := ⟨0x5, 0x24, 0x0⟩

/-- `sense::UNRECOVERED_READ_ERROR` (3/11/00). -/
def UNRECOVERED_READ_ERROR : SenseTriple := ⟨0x3, 0x11, 0x0⟩

/-- `CmdOutput` from `scsi/mod.rs`. -/
structure CmdOutput where
  status : Nat
  statusQualifier : Nat
  sense : List Nat
deriving DecidableEq, Repr

/-- `CmdOutput::ok()`. -/
def CmdOutput.ok : CmdOutput := ⟨0, 0, []⟩

/-- `CmdOutput::check_condition(sense)`. -/
def CmdOutput.checkCondition (t : SenseTriple) : CmdOutput :=
  ⟨2, 0, t.toFixedSense⟩

/-- `ReportLunsSelectReport` from `command.rs`. -/
inductive ReportLunsSelectReport where
  | noWellKnown
  | wellKnownOnly
  | all
deriving DecidableEq, Repr

/-- `TryFromPrimitive` instance of `ReportLunsSelectReport`
(`0x0 / 0x1 / 0x2`). -/
def ReportLunsSelectReport.tryFrom (v : Nat) : Option ReportLunsSelectReport :=
  match v with
  | 0x0 => some .noWellKnown
  | 0x1 => some .wellKnownOnly
  | 0x2 => some .all
  | _ => none

/-- `InquiryPageCode` from `command.rs` (the VPD page codes). -/
inductive InquiryPageCode where
  | ascii (val : Nat)
  | ata
  | blockDeviceCharacteristics
  | blockDeviceCharacteristicsExt
  | blockLimits
  | blockLimitsExt
  | cfaProfile
  | deviceConstituents
  | deviceIdentification
  | extendedInquiry
  | formatPresets
  | logicalBlockProvisioning
  | managementNetworkAddresses
  | modePagePolicy
  | powerCondition
  | powerConsumption
  | portocolSpecificLogicalUnit
  | protocolSpecificPort
  | referrals
  | scsiFeatureSets
  | scsiPorts
  | softwareInterfaceIdentification
  | supportedVpdPages
  | thirdPartyCopy
  | unitSerialNumber
  | zonedBlockDeviceCharacteristics
deriving DecidableEq, Repr

/-- `TryFrom<u8> for InquiryPageCode` from `command.rs`. -/
def InquiryPageCode.tryFrom (val : Nat) : Option InquiryPageCode :=
  match val with
  | 0x00 => some .supportedVpdPages
  | 0x80 => some .unitSerialNumber
  | 0x83 => some .deviceIdentification
  | 0x84 => some .softwareInterfaceIdentification
  | 0x85 => some .managementNetworkAddresses
  | 0x86 => some .extendedInquiry
  | 0x87 => some .modePagePolicy
  | 0x88 => some .scsiPorts
  | 0x89 => some .ata
  | 0x8a => some .powerCondition
  | 0x8b => some .deviceConstituents
  | 0x8c => some .cfaProfile
  | 0x8d => some .powerConsumption
  | 0x8f => some .thirdPartyCopy
  | 0x90 => some .portocolSpecificLogicalUnit
  | 0x91 => some .protocolSpecificPort
  | 0x92 => some .scsiFeatureSets
  | 0xb0 => some .blockLimits
  | 0xb1 => some .blockDeviceCharacteristics
  | 0xb2 => some .logicalBlockProvisioning
  | 0xb3 => some .referrals
  | 0xb5 => some .blockDeviceCharacteristicsExt
  | 0xb6 => some .zonedBlockDeviceCharacteristics
  | 0xb7 => some .blockLimitsExt
  | 0xb8 => some .formatPresets
  | v => if 0x1 ≤ v ∧ v ≤ 0x7f then some (.ascii v) else none

/-- `From<InquiryPageCode> for u8` from `command.rs`. -/
def InquiryPageCode.toU8 (pc : InquiryPageCode) : Nat :=
  match pc with
  | .ascii val => val
  | .ata => 0x89
  | .blockDeviceCharacteristics => 0xb1
  | .blockDeviceCharacteristicsExt => 0xb5
  | .blockLimits => 0xb0
  | .blockLimitsExt => 0xb7
  | .cfaProfile => 0x8c
  | .deviceConstituents => 0x8b
  | .deviceIdentification => 0x83
  | .extendedInquiry => 0x86
  | .formatPresets => 0xb8
  | .logicalBlockProvisioning => 0xb2
  | .managementNetworkAddresses => 0x85
  | .modePagePolicy => 0x87
  | .powerCondition => 0x8a
  | .powerConsumption => 0x8d
  | .portocolSpecificLogicalUnit => 0x90
  | .protocolSpecificPort => 0x91
  | .referrals => 0xb3
  | .scsiFeatureSets => 0x92
  | .scsiPorts => 0x88
  | .softwareInterfaceIdentification => 0x84
  | .supportedVpdPages => 0x00
  | .thirdPartyCopy => 0x8f
  | .unitSerialNumber => 0x80
  | .zonedBlockDeviceCharacteristics => 0xb6

/-- `ModeSensePageControl` from `command.rs`. -/
inductive ModeSensePageControl where
  | current
  | changeable
  | default
  | saved
deriving DecidableEq, Repr

/-- `TryFromPrimitive` instance of `ModeSensePageControl`
(`0b00 / 0b01 / 0b10 / 0b11`). -/
def ModeSensePageControl.tryFrom (v : Nat) : Option ModeSensePageControl :=
  match v with
  | 0 => some .current
  | 1 => some .changeable
  | 2 => some .default
  | 3 => some .saved
  | _ => none

/-- Modelled from the spec: `scsi/mode_page.rs` is absent from the
sources. Component 4.C describes a per mode-page encoder; the only page
the parser names is `Caching` (`(page=0x08, sub=0)`). -/
inductive ModePage where
  | caching
deriving DecidableEq, Repr

/-- `ModePageSelection` from `command.rs`. -/
inductive ModePageSelection where
  | allPageZeros
  | single (page : ModePage)
deriving DecidableEq, Repr

/-- `ReportSupportedOpCodesMode` from `command.rs`. -/
inductive ReportSupportedOpCodesMode where
  | all
  | oneCommand (op : Nat)
  | oneServiceAction (op : Nat) (sa : Nat)
  | oneCommandOrServiceAction (op : Nat) (sa : Nat)
deriving DecidableEq, Repr

/-- `Command` from `command.rs` (the enum of parsed commands). -/
inductive Command where
  | testUnitReady
  | reportLuns (select : ReportLunsSelectReport)
  | readCapacity16
  | modeSense6 (pc : ModeSensePageControl) (modePage : ModePageSelection) (dbd : Bool)
  | inquiry (page : Option InquiryPageCode)
  | reportSupportedOperationCodes (rctd : Bool) (mode : ReportSupportedOpCodesMode)
deriving DecidableEq, Repr

/-- `CommandType` from `command.rs`. -/
inductive CommandType where
  | testUnitReady
  | reportLuns
  | readCapacity16
  | modeSense6
  | inquiry
  | reportSupportedOperationCodes
deriving DecidableEq, Repr

/-- The `OPCODES` table from `command.rs`: command type, opcode, and
optional service action. -/
def OPCODES : List (CommandType × Nat × Option Nat) :=
  [(.testUnitReady, 0x0, none),
   (.inquiry, 0x12, none),
   (.modeSense6, 0x1a, none),
   (.readCapacity16, 0x9e, some 0x10),
   (.reportLuns, 0xa0, none),
   (.reportSupportedOperationCodes, 0xa3, some 0xc)]

/-- `ParseError` from `command.rs`. -/
inductive ParseError where
  | invalidCommand
  | invalidField
deriving DecidableEq, Repr

/-- The matching closure inside `CommandType::from_opcode_and_sa`: an
entry `(opcode, None)` matches on opcode alone, an entry
`(opcode, Some(sa))` matches on both. -/
def opcodeEntryMatches (entry : CommandType × Nat × Option Nat)
    (cmdOpcode cmdSa : Nat) : Bool :=
  match entry.2 with
  | (opcode, none) => cmdOpcode == opcode
  | (opcode, some sa) => cmdOpcode == opcode && cmdSa == sa

/-- `CommandType::from_opcode_and_sa` from `command.rs`: look the pair
up in `OPCODES`; on failure return `InvalidField` when the opcode alone
appears in the table and `InvalidCommand` otherwise. -/
def CommandType.fromOpcodeAndSa (cmdOpcode cmdSa : Nat) :
    Except ParseError CommandType :=
  match OPCODES.find? (fun entry => opcodeEntryMatches entry cmdOpcode cmdSa) with
  | some (ty, _) => .ok ty
  | none =>
      if OPCODES.any (fun entry => entry.2.1 == cmdOpcode) then
        .error .invalidField
      else
        .error .invalidCommand

/-- `CommandType::from_cdb` from `command.rs`: opcode is byte 0, the
service action is the low five bits of byte 1. -/
def CommandType.fromCdb (buf : List Nat) : Except ParseError CommandType :=
  CommandType.fromOpcodeAndSa (buf.getD 0 0) ((buf.getD 1 0) % 32)

/-- `CommandType::cdb_template` from `command.rs`: the SCSI "CDB usage
data" for each supported command type. -/
def CommandType.cdbTemplate (ty : CommandType) : List Nat :=
  match ty with
  | .testUnitReady =>
      [0x0, 0x00, 0x00, 0x00, 0x00, 0x04]
  | .reportLuns =>
      [0xa0, 0x00, 0xff, 0x00, 0x00, 0x00, 0xff, 0xff, 0xff, 0xff, 0x00, 0x04]
  | .readCapacity16 =>
      [0x9e, 0x10, 0x00, 0x00, 0x00, 0x00, 0x00, 0x00, 0x00, 0x00,
       0xff, 0xff, 0xff, 0xff, 0x00, 0x04]
  | .modeSense6 =>
      [0x1a, 0x08, 0xff, 0xff, 0xff, 0x04]
  | .inquiry =>
      [0x12, 0x01, 0xff, 0xff, 0xff, 0x04]
  | .reportSupportedOperationCodes =>
      [0xa3, 0xc, 0x87, 0xff, 0xff, 0xff, 0xff, 0xff, 0xff, 0xff, 0x00, 0x04]

/-- `Cdb` from `command.rs`: a parsed command, the allocation length
when the command has one, and the NACA flag. -/
structure Cdb where
  command : Command
  allocationLength : Option Nat
  naca : Bool
deriving DecidableEq, Repr

/-- The NACA test `(buf[i] & 0b0000_0100) != 0` used throughout
`Cdb::parse`. -/
def nacaBit (b : Nat) : Bool := b / 4 % 2 == 1

/-- `Cdb::parse` from `command.rs`. -/
def Cdb.parse (buf : List Nat) : Except ParseError Cdb :=
  match CommandType.fromCdb buf with
  | .error e => .error e
  | .ok ct =>
    match ct with
    | .testUnitReady =>
        .ok ⟨.testUnitReady, none, nacaBit (buf.getD 5 0)⟩
    | .inquiry =>
        match buf.getD 1 0 with
        | 0 =>
            -- EVPD = 0: only page code 0 is legal
            match buf.getD 2 0 with
            | 0 => .ok ⟨.inquiry none,
                        some (be16 (buf.getD 3 0) (buf.getD 4 0)),
                        nacaBit (buf.getD 5 0)⟩
            | _ => .error .invalidField
        | 1 =>
            match InquiryPageCode.tryFrom (buf.getD 2 0) with
            | some pc => .ok ⟨.inquiry (some pc),
                              some (be16 (buf.getD 3 0) (buf.getD 4 0)),
                              nacaBit (buf.getD 5 0)⟩
            | none => .error .invalidField
        | _ => .error .invalidField
    | .modeSense6 =>
        match (match buf.getD 1 0 with
               | 8 => Except.ok true
               | 0 => Except.ok false
               | _ => Except.error ParseError.invalidField) with
        | .error e => .error e
        | .ok dbd =>
          let pc := (buf.getD 2 0) / 64 % 4
          let pageCode := (buf.getD 2 0) % 64
          let subpageCode := buf.getD 3 0
          match pageCode, subpageCode with
          | 0x8, 0x0 =>
              match ModeSensePageControl.tryFrom pc with
              | some pcv => .ok ⟨.modeSense6 pcv (.single .caching) dbd,
                                 some (buf.getD 4 0), nacaBit (buf.getD 5 0)⟩
              | none => .error .invalidField
          | 0x3f, 0x0 =>
              match ModeSensePageControl.tryFrom pc with
              | some pcv => .ok ⟨.modeSense6 pcv .allPageZeros dbd,
                                 some (buf.getD 4 0), nacaBit (buf.getD 5 0)⟩
              | none => .error .invalidField
          | _, _ => .error .invalidField
    | .readCapacity16 =>
        .ok ⟨.readCapacity16,
             some (be32 (buf.getD 10 0) (buf.getD 11 0) (buf.getD 12 0) (buf.getD 13 0)),
             nacaBit (buf.getD 15 0)⟩
    | .reportLuns =>
        match ReportLunsSelectReport.tryFrom (buf.getD 2 0) with
        | some sel =>
            .ok ⟨.reportLuns sel,
                 some (be32 (buf.getD 6 0) (buf.getD 7 0) (buf.getD 8 0) (buf.getD 9 0)),
                 -- the source reads the NACA flag from byte 9 here
                 nacaBit (buf.getD 9 0)⟩
        | none => .error .invalidField
    | .reportSupportedOperationCodes =>
        let rctd := (buf.getD 2 0) / 128 % 2 == 1
        match (buf.getD 2 0) % 8 with
        | 0 => .ok ⟨.reportSupportedOperationCodes rctd .all,
                    some (be32 (buf.getD 6 0) (buf.getD 7 0) (buf.getD 8 0) (buf.getD 9 0)),
                    nacaBit (buf.getD 11 0)⟩
        | 1 => .ok ⟨.reportSupportedOperationCodes rctd (.oneCommand (buf.getD 3 0)),
                    some (be32 (buf.getD 6 0) (buf.getD 7 0) (buf.getD 8 0) (buf.getD 9 0)),
                    nacaBit (buf.getD 11 0)⟩
        | 2 => .ok ⟨.reportSupportedOperationCodes rctd
                      (.oneServiceAction (buf.getD 3 0) (be16 (buf.getD 4 0) (buf.getD 5 0))),
                    some (be32 (buf.getD 6 0) (buf.getD 7 0) (buf.getD 8 0) (buf.getD 9 0)),
                    nacaBit (buf.getD 11 0)⟩
        | 3 => .ok ⟨.reportSupportedOperationCodes rctd
                      (.oneCommandOrServiceAction (buf.getD 3 0) (be16 (buf.getD 4 0) (buf.getD 5 0))),
                    some (be32 (buf.getD 6 0) (buf.getD 7 0) (buf.getD 8 0) (buf.getD 9 0)),
                    nacaBit (buf.getD 11 0)⟩
        | _ => .error .invalidField

/-- Whether the `OPCODES` entry of a command type carries a service
action. -/
def CommandType.hasServiceAction (ty : CommandType) : Bool :=
  OPCODES.any (fun e => e.1 == ty && e.2.2.isSome)

/-- A command type's CDB usage template with all variable bits zeroed:
byte 0 (the opcode) is kept, byte 1 is kept exactly when the command has
a service action, and every other byte of the template is zeroed. -/
def zeroedTemplate (ty : CommandType) : List Nat :=
  match ty.cdbTemplate with
  | [] => []
  | [b0] => [b0]
  | b0 :: b1 :: rest =>
      b0 :: (if ty.hasServiceAction then b1 else 0) :: rest.map (fun _ => 0)

/-- The mapping from `ParseError` to a CHECK CONDITION `CmdOutput`, as
performed at the top of `execute_command` (`scsi/mod.rs` and
`scsi/block_device.rs`). -/
def parseErrorOutput : ParseError → CmdOutput
  | .invalidCommand => CmdOutput.checkCondition INVALID_COMMAND_OPERATION_CODE
  | .invalidField => CmdOutput.checkCondition INVALID_FIELD_IN_CDB

/-- Big-endian byte encoding of a `u16` (`u16::to_be_bytes`). -/
def be16L (n : Nat) : List Nat := [n / 256 % 256, n % 256]

/-- Big-endian byte encoding of a `u32` (`u32::to_be_bytes`). -/
def be32L (n : Nat) : List Nat :=
  [n / 16777216 % 256, n / 65536 % 256, n / 256 % 256, n % 256]

/-- Big-endian byte encoding of a `u64` (`u64::to_be_bytes`). -/
def be64L (n : Nat) : List Nat :=
  [n / 72057594037927936 % 256, n / 281474976710656 % 256,
   n / 1099511627776 % 256, n / 4294967296 % 256,
   n / 16777216 % 256, n / 65536 % 256, n / 256 % 256, n % 256]

/-- `usize::MAX` on the 64-bit targets the daemon runs on. -/
def USIZE_MAX : Nat := 18446744073709551615

/-- The state of a `SilentlyTruncate` sink (`scsi/mod.rs`) wrapped
around a plain byte accumulator: `out` is what has reached the
underlying sink, `remaining` is the budget left, and `streamed` records
every byte the executor handed to `write_all` (before truncation). -/
structure WriteState where
  out : List Nat
  remaining : Nat
  streamed : List Nat
deriving DecidableEq, Repr

/-- A single `SilentlyTruncate::write` call over a byte-accumulator
sink: with no budget left it pretends the whole buffer was written
while forwarding nothing; otherwise it forwards the first
`min(buf.len(), remaining)` bytes and shrinks the budget. -/
def SilentlyTruncate.write (st : WriteState) (buf : List Nat) :
    WriteState × Nat :=
  if st.remaining = 0 then (st, buf.length)
  else
    let len := min buf.length st.remaining
    ({ out := st.out ++ buf.take len,
       remaining := st.remaining - len,
       streamed := st.streamed }, len)

/-- The effect of `write_all(buf)` on a `SilentlyTruncate` sink over a
byte accumulator, in closed form: the first `remaining` bytes of `buf`
reach the underlying sink, the budget shrinks by `buf.len()` (floored
at zero, since a second `write` call with an exhausted budget pretends
to succeed), and `streamed` records the buffer handed in. -/
def writeAll (st : WriteState) (buf : List Nat) : WriteState :=
  { out := st.out ++ buf.take st.remaining,
    remaining := st.remaining - buf.length,
    streamed := st.streamed ++ buf }

/-- The sink `execute_command` builds before dispatching:
`SilentlyTruncate(req.data_in, cdb.allocation_length.map_or(usize::MAX, …))`. -/
def initSink (alloc : Option Nat) : WriteState :=
  ⟨[], alloc.getD USIZE_MAX, []⟩

/-- `BlockDevice` from `scsi/block_device.rs`, with the backing `File`
modelled as its byte contents. -/
structure BlockDevice where
  file : List Nat
  blockSize : Nat
  writeProtected : Bool
  solidState : Bool
deriving DecidableEq, Repr

/-- `BlockDevice::size_in_blocks`: asserts that the file length is a
multiple of the block size (the assertion failure is the `.error ()`
outcome; the `io::Error` path of the Rust signature cannot occur in
this pure model). -/
def BlockDevice.sizeInBlocks (dev : BlockDevice) : Except Unit Nat :=
  if dev.file.length % dev.blockSize = 0 then
    .ok (dev.file.length / dev.blockSize)
  else
    .error ()

/-- `BlockDevice::read_blocks`: `read_exact_at` fills the whole
`blocks * block_size` buffer from offset `lba * block_size`, or fails
(`none`) when the read would run past the end of the file. -/
def BlockDevice.readBlocks (dev : BlockDevice) (lba blocks : Nat) :
    Option (List Nat) :=
  if (lba + blocks) * dev.blockSize ≤ dev.file.length then
    some ((dev.file.drop (lba * dev.blockSize)).take (blocks * dev.blockSize))
  else
    none

/-- `encode_lun` from the REPORT LUNS arm of
`BlockDevice::execute_command` (callers must have checked `lun < 256`). -/
def encodeLun (lun : Nat) : List Nat := [0, lun, 0, 0, 0, 0, 0, 0]

/-- The `Command` enum of the `scsi::command` module as consumed by
`BlockDevice::execute_command` — exactly the eight variants its
exhaustive match covers. (`scsi/command.rs` itself is absent from the
sources; the variants and their fields follow the spec's data model and
the match arms of `scsi/block_device.rs`.) -/
inductive FullCommand where
  | testUnitReady
  | reportLuns (select : ReportLunsSelectReport)
  | readCapacity10
  | readCapacity16
  | modeSense6 (pc : ModeSensePageControl) (modePage : ModePageSelection) (dbd : Bool)
  | read10 (dpo fua : Bool) (lba : Nat) (groupNumber : Nat) (transferLength : Nat)
  | inquiry (page : Option InquiryPageCode)
  | reportSupportedOperationCodes (rctd : Bool) (mode : ReportSupportedOpCodesMode)
deriving DecidableEq, Repr

/-- The parsed-CDB record `BlockDevice::execute_command` dispatches on
(`Cdb` of the absent `scsi/command.rs`, with the eight-variant command
enum). -/
structure ParsedCdb where
  command : FullCommand
  allocationLength : Option Nat
  naca : Bool
deriving DecidableEq, Repr

/-- The command types of the `scsi::command` module used by the REPORT
SUPPORTED OPERATION CODES arm. Modelled from the spec: the dispatch
table of §4.B lists these nine commands. -/
inductive FullCommandType where
  | testUnitReady
  | requestSense
  | inquiry
  | modeSense6
  | readCapacity10
  | read10
  | readCapacity16
  | reportLuns
  | reportSupportedOperationCodes
deriving DecidableEq, Repr

/-- Modelled from the spec: the `OPCODES` table of the absent
`scsi/command.rs`, following the dispatch table of §4.B. -/
def FULL_OPCODES : List (FullCommandType × Nat × Option Nat) :=
  [(.testUnitReady, 0x00, none),
   (.requestSense, 0x03, none),
   (.inquiry, 0x12, none),
   (.modeSense6, 0x1a, none),
   (.readCapacity10, 0x25, none),
   (.read10, 0x28, none),
   (.readCapacity16, 0x9e, some 0x10),
   (.reportLuns, 0xa0, none),
   (.reportSupportedOperationCodes, 0xa3, some 0xc)]

/-- `ParseOpcodeResult` of the absent `scsi/command.rs`: a lone opcode
resolves to a command, to a family of service actions, or to nothing. -/
inductive ParseOpcodeResult where
  | command (ty : FullCommandType)
  | serviceAction (op : Nat)
  | invalid
deriving DecidableEq, Repr

/-- Modelled from the spec: `parse_opcode` of the absent
`scsi/command.rs`. An opcode listed without a service action resolves
directly; one listed only with service actions resolves to the family;
anything else is invalid. -/
def parseOpcode (op : Nat) : ParseOpcodeResult :=
  match FULL_OPCODES.find? (fun e => e.2.1 == op && e.2.2.isNone) with
  | some (ty, _) => .command ty
  | none =>
      if FULL_OPCODES.any (fun e => e.2.1 == op) then
        .serviceAction op
      else
        .invalid

/-- Modelled from the spec: `UnparsedServiceAction::parse` of the
absent `scsi/command.rs` — look up the `(opcode, service action)` pair. -/
def serviceActionParse (op sa : Nat) : Option FullCommandType :=
  (FULL_OPCODES.find? (fun e => e.2.1 == op && e.2.2 == some sa)).map (·.1)

/-- The parts of the absent `scsi/command.rs` and `scsi/mode_page.rs`
the executor consumes without inspecting: the per-type CDB usage
templates and the mode-page encoders. Theorems quantify over this
environment, so they hold for whatever the absent files define. -/
structure ExecEnv where
  cdbTemplateF : FullCommandType → List Nat
  pageLength : ModePage → Nat
  pageBytes : ModePage → List Nat
  allZero : List ModePage

/-- The 12-byte `timeout_descriptor` of the REPORT SUPPORTED OPERATION
CODES arm. -/
def timeoutDescriptor : List Nat :=
  be16L 0xa ++ [0, 0] ++ be32L 0 ++ be32L 0

/-- `one_command_supported` from the REPORT SUPPORTED OPERATION CODES
arm: flags, the template length as `u16` (whose `unwrap` panics when
the template cannot fit), and the template itself. -/
def oneCommandSupported (env : ExecEnv) (st : WriteState)
    (ty : FullCommandType) : Except Unit WriteState :=
  let st1 := writeAll st [0]
  let st2 := writeAll st1 [3]
  let tpl := env.cdbTemplateF ty
  if 65536 ≤ tpl.length then .error ()
  else .ok (writeAll (writeAll st2 (be16L tpl.length)) tpl)

/-- `one_command_not_supported` from the REPORT SUPPORTED OPERATION
CODES arm. -/
def oneCommandNotSupported (st : WriteState) : WriteState :=
  writeAll (writeAll (writeAll st [0]) [1]) [0, 0]

/-- One entry's bytes in the `All` mode of REPORT SUPPORTED OPERATION
CODES: opcode, reserved, service action (0 when absent), reserved,
CTDP/SERVACTV flags, the CDB length, and a timeout descriptor when
RCTD is set. -/
def rsocAllEntry (env : ExecEnv) (rctd : Bool) (st : WriteState)
    (e : FullCommandType × Nat × Option Nat) : WriteState :=
  let st1 := writeAll st [e.2.1]
  let st2 := writeAll st1 [0]
  let st3 := writeAll st2 (be16L ((e.2.2).getD 0))
  let st4 := writeAll st3 [0]
  let ctdp := if rctd then 2 else 0
  let servactv := if (e.2.2).isSome then 1 else 0
  let st5 := writeAll st4 [ctdp + servactv]
  let st6 := writeAll st5 (be16L (env.cdbTemplateF e.1).length)
  if rctd then writeAll st6 timeoutDescriptor else st6

/-- The standard INQUIRY data written by `BlockDevice::execute_command`
after the leading device-type byte: fixed header bytes, the T10 vendor
`"rust-vmm"`, the product `"vhost-user-scsi "`, the revision `"v0  "`,
22 reserved zeros, eight big-endian version descriptors, and 22 more
zeros. -/
def standardInquiryBody : List Nat :=
  [0, 0x7, 0x32, 91, 0, 0, 0x02] ++
  [0x72, 0x75, 0x73, 0x74, 0x2d, 0x76, 0x6d, 0x6d] ++
  [0x76, 0x68, 0x6f, 0x73, 0x74, 0x2d, 0x75, 0x73, 0x65, 0x72,
   0x2d, 0x73, 0x63, 0x73, 0x69, 0x20] ++
  [0x76, 0x30, 0x20, 0x20] ++
  List.replicate 22 0 ++
  (([0xc0, 0x05c0, 0x0600, 0x0, 0x0, 0x0, 0x0, 0x0].map be16L).flatten) ++
  List.replicate 22 0

/-- The VPD page payload (`out` in the source) assembled by the INQUIRY
arm of `BlockDevice::execute_command`; `none` for the pages that fall
to the `check_condition(INVALID_FIELD_IN_CDB)` default arm. -/
def inquiryVpdBody (dev : BlockDevice) (code : InquiryPageCode) :
    Option (List Nat) :=
  match code with
  | .supportedVpdPages =>
      some [InquiryPageCode.supportedVpdPages.toU8,
            InquiryPageCode.blockDeviceCharacteristics.toU8,
            InquiryPageCode.logicalBlockProvisioning.toU8]
  | .blockDeviceCharacteristics =>
      some (be16L (if dev.solidState then 1 else 0) ++ List.replicate 58 0)
  | .logicalBlockProvisioning =>
      some [0, 0xe4, 0x02, 0]
  | _ => none

/-- The command-dispatch part of `BlockDevice::execute_command`
(`scsi/block_device.rs`), acting on the `SilentlyTruncate`d sink built
from the allocation length. `luns` is `target.luns()`. The `.error ()`
outcome models a panic (`hope!`, `assert!`, a failing `unwrap` or `u64`
underflow); `.ok` pairs the returned `CmdOutput` with the final sink
state. -/
def executeParsed (env : ExecEnv) (dev : BlockDevice) (luns : List Nat)
    (cdb : ParsedCdb) : Except Unit (CmdOutput × WriteState) :=
  let st0 := initSink cdb.allocationLength
  match cdb.command with
  | .testUnitReady => .ok (CmdOutput.ok, st0)
  | .reportLuns sel =>
      if sel ≠ ReportLunsSelectReport.noWellKnown then .error ()
      else if 4294967296 ≤ luns.length * 8 then .error ()
      else if luns.any (fun l => 256 ≤ l) then .error ()
      else
        let st1 := writeAll st0 (be32L (luns.length * 8))
        let st2 := writeAll st1 [0, 0, 0, 0]
        let st3 := luns.foldl (fun st l => writeAll st (encodeLun l)) st2
        .ok (CmdOutput.ok, st3)
  | .readCapacity10 =>
      match dev.sizeInBlocks with
      | .error _ => .error ()
      | .ok size =>
          if size = 0 then .error ()
          else
            let finalBlock :=
              if 4294967296 ≤ size - 1 then 4294967295 else size - 1
            let st1 := writeAll st0 (be32L finalBlock)
            let st2 := writeAll st1 (be32L dev.blockSize)
            .ok (CmdOutput.ok, st2)
  | .readCapacity16 =>
      match dev.sizeInBlocks with
      | .error _ => .error ()
      | .ok size =>
          if size = 0 then .error ()
          else
            let st1 := writeAll st0 (be64L (size - 1))
            let st2 := writeAll st1 (be32L dev.blockSize)
            let st3 := writeAll st2 [0, 0]
            let st4 := writeAll st3 [0xc0, 0]
            let st5 := writeAll st4 (List.replicate 16 0)
            .ok (CmdOutput.ok, st5)
  | .modeSense6 pc sel dbd =>
      if pc ≠ ModeSensePageControl.current then .error ()
      else if dbd then .error ()
      else
        let pages := match sel with
          | .single x => [x]
          | .allPageZeros => env.allZero
        let pagesLen := (pages.map (fun x => env.pageLength x + 2)).sum
        if 256 ≤ pagesLen then .error ()
        else
          let st1 := writeAll st0
            [pagesLen + 3, 0, if dev.writeProtected then 0x90 else 0x10, 0]
          let st2 := pages.foldl (fun st p => writeAll st (env.pageBytes p)) st1
          .ok (CmdOutput.ok, st2)
  | .read10 _dpo _fua lba gn len =>
      if gn ≠ 0 then .error ()
      else
        match dev.sizeInBlocks with
        | .error _ => .error ()
        | .ok size =>
            if size < lba + len then
              .ok (CmdOutput.checkCondition LOGICAL_BLOCK_ADDRESS_OUT_OF_RANGE, st0)
            else
              match dev.readBlocks lba len with
              | some bytes => .ok (CmdOutput.ok, writeAll st0 bytes)
              | none =>
                  .ok (CmdOutput.checkCondition UNRECOVERED_READ_ERROR, st0)
  | .inquiry page =>
      let st1 := writeAll st0 [0]
      match page with
      | some code =>
          match inquiryVpdBody dev code with
          | none => .ok (CmdOutput.checkCondition INVALID_FIELD_IN_CDB, st1)
          | some body =>
              let st2 := writeAll st1 [code.toU8]
              let st3 := writeAll st2 (be16L body.length)
              let st4 := writeAll st3 body
              .ok (CmdOutput.ok, st4)
      | none =>
          .ok (CmdOutput.ok, writeAll st1 standardInquiryBody)
  | .reportSupportedOperationCodes rctd mode =>
      match mode with
      | .all =>
          let cmdLen := if rctd then 20 else 8
          if 4294967296 ≤ FULL_OPCODES.length * cmdLen then .error ()
          else if FULL_OPCODES.any
              (fun e => 65536 ≤ (env.cdbTemplateF e.1).length) then .error ()
          else
            let st1 := writeAll st0 (be32L (FULL_OPCODES.length * cmdLen))
            let st2 := FULL_OPCODES.foldl (rsocAllEntry env rctd) st1
            .ok (CmdOutput.ok, st2)
      | .oneCommand op =>
          match parseOpcode op with
          | .command ty =>
              match oneCommandSupported env st0 ty with
              | .error _ => .error ()
              | .ok st1 =>
                  let st2 := if rctd then writeAll st1 timeoutDescriptor else st1
                  .ok (CmdOutput.ok, st2)
          | .serviceAction _ =>
              .ok (CmdOutput.checkCondition INVALID_FIELD_IN_CDB, st0)
          | .invalid => .ok (CmdOutput.ok, oneCommandNotSupported st0)
      | .oneServiceAction op sa =>
          match parseOpcode op with
          | .command _ =>
              .ok (CmdOutput.checkCondition INVALID_FIELD_IN_CDB, st0)
          | .serviceAction _ =>
              match serviceActionParse op sa with
              | some ty =>
                  match oneCommandSupported env st0 ty with
                  | .error _ => .error ()
                  | .ok st1 =>
                      let st2 := if rctd then writeAll st1 timeoutDescriptor else st1
                      .ok (CmdOutput.ok, st2)
              | none => .ok (CmdOutput.ok, oneCommandNotSupported st0)
          | .invalid =>
              .ok (CmdOutput.checkCondition INVALID_FIELD_IN_CDB, st0)
      | .oneCommandOrServiceAction op sa =>
          match parseOpcode op with
          | .command ty =>
              if sa = 0 then
                match oneCommandSupported env st0 ty with
                | .error _ => .error ()
                | .ok st1 =>
                    let st2 := if rctd then writeAll st1 timeoutDescriptor else st1
                    .ok (CmdOutput.ok, st2)
              else .ok (CmdOutput.ok, oneCommandNotSupported st0)
          | .serviceAction _ =>
              match serviceActionParse op sa with
              | some ty =>
                  match oneCommandSupported env st0 ty with
                  | .error _ => .error ()
                  | .ok st1 =>
                      let st2 := if rctd then writeAll st1 timeoutDescriptor else st1
                      .ok (CmdOutput.ok, st2)
              | none => .ok (CmdOutput.ok, oneCommandNotSupported st0)
          | .invalid => .ok (CmdOutput.ok, oneCommandNotSupported st0)

/-- `BlockDevice::execute_command` end to end: the parse-failure arms
map `ParseError` to a CHECK CONDITION output with nothing written, a
set NACA flag panics (`hope!(!cdb.naca)`), and an accepted CDB is
dispatched by `executeParsed`. -/
def executeCommand (env : ExecEnv) (dev : BlockDevice) (luns : List Nat)
    (parseRes : Except ParseError ParsedCdb) :
    Except Unit (CmdOutput × WriteState) :=
  match parseRes with
  | .error e => .ok (parseErrorOutput e, ⟨[], 0, []⟩)
  | .ok cdb => if cdb.naca then .error () else executeParsed env dev luns cdb

/-- `VirtioScsiLun` from `virtio.rs`. -/
inductive VirtioScsiLun where
  | reportLuns
  | targetLun (target : Nat) (lun : Nat)
deriving DecidableEq, Repr

/-- The observable outcome of `VirtioScsiLun::parse`: the function
either returns an `Option<VirtioScsiLun>` or fails the `hope!`
assertion on byte 2 and aborts. -/
inductive LunParseOutcome where
  | panics
  | returns (r : Option VirtioScsiLun)
deriving DecidableEq, Repr

/-- `VirtioScsiLun::parse` from `virtio.rs`: the exact well-known
REPORT LUNS pattern, else the flat-space form when byte 0 is `0x01`
(asserting bit 6 of byte 2), else `None`. -/
def VirtioScsiLun.parse (bytes : List Nat) : LunParseOutcome :=
  if bytes = [0xc1, 0x01, 0x0, 0x0, 0x0, 0x0, 0x0, 0x0] then
    .returns (some .reportLuns)
  else if bytes.getD 0 0 = 0x1 then
    if (bytes.getD 2 0) / 64 % 2 = 1 then
      .returns (some (.targetLun (bytes.getD 1 0)
        (be16 ((bytes.getD 2 0) % 64) (bytes.getD 3 0))))
    else
      .panics
  else
    .returns none

/-- `VirtioScsiResponse` from `virtio.rs`. -/
inductive VirtioScsiResponse where
  | ok
  | overrun
  | aborted
  | badTarget
  | reset
  | transportFailure
  | targetFailure
  | nexusFailure
  | busy
  | failure
deriving DecidableEq, Repr

/-- The `repr(u8)` discriminants of `VirtioScsiResponse`. -/
def VirtioScsiResponse.toU8 : VirtioScsiResponse → Nat
  | .ok => 0
  | .overrun => 1
  | .aborted => 2
  | .badTarget => 3
  | .reset => 4
  | .transportFailure => 5
  | .targetFailure => 6
  | .nexusFailure => 7
  | .busy => 8
  | .failure => 9

/-- `Response` from `virtio.rs`. -/
structure Response where
  response : VirtioScsiResponse
  status : Nat
  statusQualifier : Nat
  sense : List Nat
  residual : Nat
deriving DecidableEq, Repr

/-- Little-endian byte encoding of a `u16` (`u16::to_le_bytes`). -/
def le16L (n : Nat) : List Nat := [n % 256, n / 256 % 256]

/-- Little-endian byte encoding of a `u32` (`u32::to_le_bytes`). -/
def le32L (n : Nat) : List Nat :=
  [n % 256, n / 256 % 256, n / 65536 % 256, n / 16777216 % 256]

/-- `Response::write` from `virtio.rs`: the 12-byte response header
(sense length, residual, status qualifier, status, response code)
followed by the sense bytes. -/
def Response.writeBytes (r : Response) : List Nat :=
  le32L r.sense.length ++ le32L r.residual ++ le16L r.statusQualifier ++
  [r.status] ++ [r.response.toU8] ++ r.sense

/-- `ErrorKind` of the `io::Error` carried by `CmdError::DataIn`, as
distinguished by `handle_request_queue`. -/
inductive IOErrorKind where
  | writeZero
  | other
deriving DecidableEq, Repr

/-- `CmdError` from `scsi/mod.rs`. -/
inductive CmdError where
  | cdbTooShort
  | dataIn (kind : IOErrorKind)
deriving DecidableEq, Repr

/-- The observable outcome of `handle_request_queue` (`main.rs`) for
one request: it writes exactly one response, returns without writing
one (the abandoned-descriptor path), or hits `assert!`/`unreachable!`. -/
inductive FramerOutcome where
  | panics
  | abandoned
  | wrote (r : Response)
deriving DecidableEq, Repr

/-- The response-selection logic of `handle_request_queue` (`main.rs`):
`res` is `None` when `parse_target` found no target, otherwise the
logical unit's result; `residual` is `body_writer.residual()`. -/
def handleRequestResponse (res : Option (Except CmdError CmdOutput))
    (residual : Nat) : FramerOutcome :=
  match res with
  | none => .wrote ⟨.badTarget, 0, 0, [], residual⟩
  | some (.ok out) =>
      if out.sense.length < 96 then
        .wrote ⟨.ok, out.status, out.statusQualifier, out.sense, residual⟩
      else
        .panics
  | some (.error .cdbTooShort) => .panics
  | some (.error (.dataIn .writeZero)) => .wrote ⟨.overrun, 0, 0, [], 0⟩
  | some (.error (.dataIn .other)) => .abandoned

/-- The responses written for a request: one `Response::write` call per
`.wrote` outcome, none otherwise. -/
def responsesWritten : FramerOutcome → List Response
  | .wrote r => [r]
  | _ => []

/-- `DescriptorChainWriter` from `virtio.rs`, over the writable
descriptors of one chain. Only the descriptor lengths matter to the
cursor arithmetic: `current` is the active descriptor's length, `iter`
the lengths still to come, `offset` the position inside the active
descriptor, and `written` the cursor's cumulative `written` counter
(clones copy it). The shared `max_written` cell lives in `DCSystem`. -/
structure DCWriter where
  iter : List Nat
  current : Option Nat
  offset : Nat
  written : Nat
deriving DecidableEq, Repr

/-- `DescriptorChainWriter::new`: take the first writable descriptor
from the iterator. -/
def DCWriter.new (ds : List Nat) : DCWriter :=
  match ds with
  | [] => ⟨[], none, 0, 0⟩
  | d :: rest => ⟨rest, some d, 0, 0⟩

/-- The while loop of `DescriptorChainWriter::skip`: move past whole
descriptors while the offset reaches or exceeds the active one. -/
def skipLoop : Option Nat → List Nat → Nat → Option Nat × List Nat × Nat
  | none, iter, offset => (none, iter, offset)
  | some l, iter, offset =>
      if l ≤ offset then
        match iter with
        | [] => (none, [], offset - l)
        | h :: t => skipLoop (some h) t (offset - l)
      else
        (some l, iter, offset)

/-- `DescriptorChainWriter::skip` without the shared-cell update:
advance the offset by `bytes` and bump the cursor's own counter. -/
def DCWriter.skipApply (w : DCWriter) (bytes : Nat) : DCWriter :=
  let r := skipLoop w.current w.iter (w.offset + bytes)
  ⟨r.2.1, r.1, r.2.2, w.written + bytes⟩

/-- The loop of `DescriptorChainWriter::residual`: sum the unused tail
of the active descriptor and every descriptor after it. -/
def residualLoop : Option Nat → List Nat → Nat → Nat
  | none, _, _ => 0
  | some l, iter, offset =>
      (l - offset) +
      (match iter with
       | [] => 0
       | h :: t => residualLoop (some h) t 0)

/-- The value `DescriptorChainWriter::residual` returns. -/
def DCWriter.residualVal (w : DCWriter) : Nat :=
  residualLoop w.current w.iter w.offset

/-- `DescriptorChainWriter::write` without the shared-cell update:
write at most to the end of the active descriptor, advancing to the
next descriptor when it fills; with no active descriptor report zero
bytes written. Returns the updated cursor and the byte count. -/
def DCWriter.writeApply (w : DCWriter) (bufLen : Nat) : DCWriter × Nat :=
  match w.current with
  | none => (w, 0)
  | some l =>
      let toWrite := min (l - w.offset) bufLen
      let offset := w.offset + toWrite
      if offset = l then
        (⟨w.iter.tail, w.iter.head?, 0, w.written + toWrite⟩, toWrite)
      else
        (⟨w.iter, some l, offset, w.written + toWrite⟩, toWrite)

/-- A family of write cursors sharing one `max_written` cell
(`Rc<Cell<u32>>` in the source): the original cursor and every clone,
plus the cell's value. -/
structure DCSystem where
  writers : List DCWriter
  cell : Nat
deriving DecidableEq, Repr

/-- The operations the framer performs on the cursor family: cloning a
cursor, `skip(n)` on a cursor, and a `write` call of `n` bytes through
a cursor. -/
inductive DCOp where
  | clone (i : Nat)
  | skip (i : Nat) (n : Nat)
  | write (i : Nat) (n : Nat)
deriving DecidableEq, Repr

/-- One operation on the cursor family. `skip` and a successful `write`
call `add_written`, which raises the shared cell to that cursor's new
`written` counter; a `write` with no active descriptor returns without
touching the cell. -/
def DCSystem.step (s : DCSystem) (op : DCOp) : DCSystem :=
  match op with
  | .clone i =>
      match s.writers[i]? with
      | some w => ⟨s.writers ++ [w], s.cell⟩
      | none => s
  | .skip i n =>
      match s.writers[i]? with
      | some w => ⟨s.writers.set i (w.skipApply n), max s.cell (w.written + n)⟩
      | none => s
  | .write i n =>
      match s.writers[i]? with
      | some w =>
          match w.current with
          | some _ =>
              let r := w.writeApply n
              ⟨s.writers.set i r.1, max s.cell (w.written + r.2)⟩
          | none => ⟨s.writers.set i (w.writeApply n).1, s.cell⟩
      | none => s

/-- A fresh cursor family over one chain: the single original cursor
and a zeroed cell. -/
def DCSystem.init (ds : List Nat) : DCSystem := ⟨[DCWriter.new ds], 0⟩

/-- Run a sequence of operations on a fresh cursor family. -/
def DCSystem.run (ds : List Nat) (ops : List DCOp) : DCSystem :=
  ops.foldl DCSystem.step (DCSystem.init ds)

/-- The largest `written` counter among the cursors of a family. -/
def maxWritten (ws : List DCWriter) : Nat :=
  ws.foldr (fun w acc => max w.written acc) 0

/-- A concrete environment standing in for the absent
`scsi/command.rs` / `scsi/mode_page.rs` definitions, used to
instantiate environment-polymorphic theorems. -/
def trivEnv : ExecEnv := ⟨fun _ => [0], fun _ => 0, fun _ => [], []⟩

/-- C1: the dispatch table of `command.rs` has no entries for opcodes
0x03 (REQUEST SENSE), 0x25 (READ CAPACITY (10)) and 0x28 (READ (10)),
and `Cdb::parse` rejects those CDBs — including the repository's own
`test_read_10` CDB — with `InvalidCommand` instead of returning the
commands the spec's table lists. -/
theorem requestSense_readCapacity10_read10_unparsed :
    Cdb.parse [0x28, 0, 0, 0, 0, 5, 0, 0, 1, 0] = .error .invalidCommand ∧
    Cdb.parse [0x03, 0, 0, 0, 0, 0] = .error .invalidCommand ∧
    Cdb.parse [0x25, 0, 0, 0, 0, 0, 0, 0, 0, 0] = .error .invalidCommand ∧
    (∀ e ∈ OPCODES, e.2.1 ≠ 0x03 ∧ e.2.1 ≠ 0x25 ∧ e.2.1 ≠ 0x28) := by
  refine ⟨rfl, rfl, rfl, by decide⟩

/-- C2: on the 12-byte REPORT LUNS CDB `a0 00 00 00 00 00 00 00 01 00
00 04`, whose control byte (byte 11) has the NACA bit set, `Cdb::parse`
returns `naca = false`: the ReportLuns arm reads the flag from byte 9
(the low byte of the allocation length) instead of the control byte,
even though the command's own CDB usage template places the NACA bit at
byte 11. -/
theorem reportLuns_naca_read_from_byte_9 :
    Cdb.parse [0xa0, 0, 0, 0, 0, 0, 0, 0, 1, 0, 0, 4] =
      .ok ⟨.reportLuns .noWellKnown, some 256, false⟩ ∧
    nacaBit ([0xa0, 0, 0, 0, 0, 0, 0, 0, 1, 0, 0, 4].getD 11 0) = true ∧
    (CommandType.cdbTemplate .reportLuns).getD 11 0 = 0x04 := by
  refine ⟨rfl, rfl, rfl⟩

/-- C5 (counterexample): the zeroed CDB usage template of MODE SENSE
(6) — `1a 00 00 00 00 00`, page code 0, subpage 0 — is rejected by
`Cdb::parse` with `InvalidField`, so the template-parses-successfully
property fails for one supported command type. -/
theorem modeSense6_zeroed_template_rejected :
    Cdb.parse (zeroedTemplate .modeSense6) = .error .invalidField := rfl

/-- C5 (amended): for the five supported command types other than MODE
SENSE (6), `Cdb::parse` accepts the zeroed CDB usage template. -/
theorem zeroed_templates_parse :
    (Cdb.parse (zeroedTemplate .testUnitReady)).isOk = true ∧
    (Cdb.parse (zeroedTemplate .inquiry)).isOk = true ∧
    (Cdb.parse (zeroedTemplate .readCapacity16)).isOk = true ∧
    (Cdb.parse (zeroedTemplate .reportLuns)).isOk = true ∧
    (Cdb.parse (zeroedTemplate .reportSupportedOperationCodes)).isOk = true := by
  refine ⟨rfl, rfl, rfl, rfl, rfl⟩

/-- C10: `VirtioScsiLun::parse` fails its assertion (aborting the
process) on the guest-suppliable LUN field `01 00 00 00 00 00 00 00`
(first byte 0x01, bit 6 of byte 2 clear), and it returns `None` exactly
when the 8 bytes are not the well-known REPORT LUNS pattern and the
first byte is not 0x01. -/
theorem virtioScsiLun_parse_panics :
    VirtioScsiLun.parse [0x1, 0, 0, 0, 0, 0, 0, 0] = .panics ∧
    ∀ bytes : List Nat,
      VirtioScsiLun.parse bytes = .returns none ↔
        (bytes ≠ [0xc1, 0x01, 0x0, 0x0, 0x0, 0x0, 0x0, 0x0] ∧
         bytes.getD 0 0 ≠ 0x1) := by
  constructor
  · decide
  · intro bytes
    unfold VirtioScsiLun.parse
    split
    · simp_all
    · split
      · split <;> simp_all
      · simp_all

/-- One `write_all` call cannot grow the forwarded bytes by more than
it shrinks the remaining budget. -/
theorem writeAll_budget (st : WriteState) (buf : List Nat) :
    (writeAll st buf).out.length + (writeAll st buf).remaining ≤
      st.out.length + st.remaining := by
  simp only [writeAll, List.length_append, List.length_take]
  omega

/-- Any sequence of `write_all` calls preserves the budget bound. -/
theorem foldl_writeAll_budget (bufs : List (List Nat)) : ∀ st : WriteState,
    ((bufs.foldl writeAll st).out.length + (bufs.foldl writeAll st).remaining) ≤
      st.out.length + st.remaining := by
  induction bufs with
  | nil => intro st; simp
  | cons b bs ih =>
      intro st
      calc ((bs.foldl writeAll (writeAll st b)).out.length +
              (bs.foldl writeAll (writeAll st b)).remaining) ≤
            (writeAll st b).out.length + (writeAll st b).remaining := ih _
        _ ≤ st.out.length + st.remaining := writeAll_budget st b

/-- C3: with the truncating sink built from `allocation_length =
Some L`, any sequence of `write_all` calls forwards at most `L` bytes
to the underlying sink; and a `write` on an exhausted budget reports
the whole buffer as written while changing nothing — the bound never
produces an error. -/
theorem allocation_length_bounds_forwarded_bytes (L : Nat)
    (bufs : List (List Nat)) (st : WriteState) (buf : List Nat)
    (h0 : st.remaining = 0) :
    (bufs.foldl writeAll (initSink (some L))).out.length ≤ L ∧
    SilentlyTruncate.write st buf = (st, buf.length) := by
  constructor
  · have h2 := foldl_writeAll_budget bufs (initSink (some L))
    simp only [initSink, Option.getD_some, List.length_nil] at h2 ⊢
    omega
  · simp [SilentlyTruncate.write, h0]

/-- Witness for C3 at `L = 1` with writes `[7, 7, 7]` and an exhausted
sink. -/
theorem allocation_length_bounds_forwarded_bytes_witness :
    (([[7, 7, 7]] : List (List Nat)).foldl writeAll (initSink (some 1))).out.length ≤ 1 ∧
    SilentlyTruncate.write ⟨[9], 0, [9]⟩ [5, 6] = (⟨[9], 0, [9]⟩, 2) :=
  allocation_length_bounds_forwarded_bytes 1 [[7, 7, 7]] ⟨[9], 0, [9]⟩ [5, 6] rfl

/-- When no `OPCODES` entry matches, `from_opcode_and_sa` reaches its
disambiguation branch. -/
theorem fromOpcodeAndSa_not_found (op sa : Nat)
    (h : ∀ e ∈ OPCODES, opcodeEntryMatches e op sa = false) :
    CommandType.fromOpcodeAndSa op sa =
      if OPCODES.any (fun e => e.2.1 == op) then .error .invalidField
      else .error .invalidCommand := by
  have hfind : OPCODES.find? (fun e => opcodeEntryMatches e op sa) = none := by
    rw [List.find?_eq_none]
    intro x hx
    simp [h x hx]
  unfold CommandType.fromOpcodeAndSa
  rw [hfind]

/-- A dispatch failure propagates out of `Cdb::parse` unchanged. -/
theorem Cdb.parse_error (buf : List Nat) (e : ParseError)
    (h : CommandType.fromCdb buf = .error e) : Cdb.parse buf = .error e := by
  unfold Cdb.parse
  rw [h]

/-- C4: when a CDB's `(opcode, service action)` pair matches no entry
of `OPCODES`, `Cdb::parse` classifies it as `InvalidField` if the
opcode alone appears in the table and `InvalidCommand` otherwise, and
`execute_command` maps those errors to CHECK CONDITION with sense
5/24/00 resp. 5/20/00. -/
theorem unknown_opcode_and_service_action_classified (buf : List Nat)
    (h : ∀ e ∈ OPCODES,
      opcodeEntryMatches e (buf.getD 0 0) ((buf.getD 1 0) % 32) = false) :
    (OPCODES.any (fun e => e.2.1 == buf.getD 0 0) = true →
       Cdb.parse buf = .error .invalidField ∧
       parseErrorOutput .invalidField =
         CmdOutput.checkCondition ⟨0x5, 0x24, 0x0⟩) ∧
    (OPCODES.any (fun e => e.2.1 == buf.getD 0 0) = false →
       Cdb.parse buf = .error .invalidCommand ∧
       parseErrorOutput .invalidCommand =
         CmdOutput.checkCondition ⟨0x5, 0x20, 0x0⟩) := by
  have base := fromOpcodeAndSa_not_found (buf.getD 0 0) ((buf.getD 1 0) % 32) h
  constructor
  · intro hany
    refine ⟨Cdb.parse_error buf _ ?_, rfl⟩
    unfold CommandType.fromCdb
    rw [base, if_pos hany]
  · intro hany
    refine ⟨Cdb.parse_error buf _ ?_, rfl⟩
    unfold CommandType.fromCdb
    rw [base, if_neg (by simp only [hany]; exact Bool.false_ne_true)]

/-- Witness for C4: opcode 0xFF (no table entry at all) and the
repository's own invalid-service-action CDB `a3 1f 00 …` (opcode 0xA3
present, service action 0x1F unknown). -/
theorem unknown_opcode_and_service_action_classified_witness :
    (Cdb.parse [0xff, 0, 0, 0, 0, 0] = .error .invalidCommand ∧
     parseErrorOutput .invalidCommand =
       CmdOutput.checkCondition ⟨0x5, 0x20, 0x0⟩) ∧
    (Cdb.parse [0xa3, 0x1f, 0, 0, 0, 0, 0, 0, 0, 0, 0, 0] = .error .invalidField ∧
     parseErrorOutput .invalidField =
       CmdOutput.checkCondition ⟨0x5, 0x24, 0x0⟩) :=
  ⟨(unknown_opcode_and_service_action_classified [0xff, 0, 0, 0, 0, 0]
      (by decide)).2 (by decide),
   (unknown_opcode_and_service_action_classified
      [0xa3, 0x1f, 0, 0, 0, 0, 0, 0, 0, 0, 0, 0] (by decide)).1 (by decide)⟩

/-- C7: per request, the framer writes exactly one `BadTarget` response
(status 0, empty sense, the body cursor's residual) when the LUN
resolves to no target; exactly one `Ok` response carrying the output's
status, qualifier and sense when the logical unit succeeds; exactly one
`Overrun` response (status 0, empty sense) on a `WriteZero` data-in
error; no response on any other data-in error; and never more than one
response. -/
theorem framer_response_cases (res : Option (Except CmdError CmdOutput))
    (r : Nat) :
    (res = none →
       responsesWritten (handleRequestResponse res r) =
         [⟨.badTarget, 0, 0, [], r⟩]) ∧
    (∀ out : CmdOutput, res = some (.ok out) → out.sense.length < 96 →
       responsesWritten (handleRequestResponse res r) =
         [⟨.ok, out.status, out.statusQualifier, out.sense, r⟩]) ∧
    (res = some (.error (.dataIn .writeZero)) →
       responsesWritten (handleRequestResponse res r) =
         [⟨.overrun, 0, 0, [], 0⟩]) ∧
    (res = some (.error (.dataIn .other)) →
       responsesWritten (handleRequestResponse res r) = []) ∧
    (responsesWritten (handleRequestResponse res r)).length ≤ 1 := by
  refine ⟨?_, ?_, ?_, ?_, ?_⟩
  · intro hres
    subst hres
    simp [handleRequestResponse, responsesWritten]
  · intro out hres hlen
    subst hres
    simp [handleRequestResponse, responsesWritten, if_pos hlen]
  · intro hres
    subst hres
    simp [handleRequestResponse, responsesWritten]
  · intro hres
    subst hres
    simp [handleRequestResponse, responsesWritten]
  · cases hout : handleRequestResponse res r <;> simp [responsesWritten]

/-- Witness for C7 at the four concrete outcomes. -/
theorem framer_response_cases_witness :
    responsesWritten (handleRequestResponse none 5) =
      [⟨.badTarget, 0, 0, [], 5⟩] ∧
    responsesWritten (handleRequestResponse (some (.ok CmdOutput.ok)) 7) =
      [⟨.ok, 0, 0, [], 7⟩] ∧
    responsesWritten
        (handleRequestResponse (some (.error (.dataIn .writeZero))) 3) =
      [⟨.overrun, 0, 0, [], 0⟩] ∧
    responsesWritten
        (handleRequestResponse (some (.error (.dataIn .other))) 3) = [] :=
  ⟨(framer_response_cases none 5).1 rfl,
   (framer_response_cases (some (.ok CmdOutput.ok)) 7).2.1 CmdOutput.ok rfl
     (by decide),
   (framer_response_cases (some (.error (.dataIn .writeZero))) 3).2.2.1 rfl,
   (framer_response_cases (some (.error (.dataIn .other))) 3).2.2.2.1 rfl⟩

/-- C6: for a READ (10) with group number 0 against a block device
whose file length is a whole number of blocks: when
`lba + transfer_length` exceeds `size_in_blocks` the result is CHECK
CONDITION with `LOGICAL_BLOCK_ADDRESS_OUT_OF_RANGE` and nothing reaches
`data_in`; otherwise the status is GOOD and exactly
`transfer_length * block_size` bytes — the blocks starting at `lba` —
are streamed into `data_in`. -/
theorem read10_range_check (env : ExecEnv) (dev : BlockDevice)
    (luns : List Nat) (dpo fua naca : Bool) (lba len : Nat)
    (alloc : Option Nat)
    (hdiv : dev.file.length % dev.blockSize = 0) :
    (dev.file.length / dev.blockSize < lba + len →
       executeParsed env dev luns ⟨.read10 dpo fua lba 0 len, alloc, naca⟩ =
         .ok (CmdOutput.checkCondition LOGICAL_BLOCK_ADDRESS_OUT_OF_RANGE,
              initSink alloc) ∧
       (initSink alloc).streamed = [] ∧ (initSink alloc).out = []) ∧
    (lba + len ≤ dev.file.length / dev.blockSize →
       executeParsed env dev luns ⟨.read10 dpo fua lba 0 len, alloc, naca⟩ =
         .ok (CmdOutput.ok,
              writeAll (initSink alloc)
                ((dev.file.drop (lba * dev.blockSize)).take
                  (len * dev.blockSize))) ∧
       (writeAll (initSink alloc)
          ((dev.file.drop (lba * dev.blockSize)).take
            (len * dev.blockSize))).streamed =
         (dev.file.drop (lba * dev.blockSize)).take (len * dev.blockSize) ∧
       ((dev.file.drop (lba * dev.blockSize)).take
          (len * dev.blockSize)).length = len * dev.blockSize) := by
  constructor
  · intro hlt
    refine ⟨?_, rfl, rfl⟩
    simp [executeParsed, BlockDevice.sizeInBlocks, hdiv, hlt]
  · intro hge
    have hrange : (lba + len) * dev.blockSize ≤ dev.file.length := by
      calc (lba + len) * dev.blockSize ≤
            (dev.file.length / dev.blockSize) * dev.blockSize :=
              Nat.mul_le_mul_right _ hge
        _ ≤ dev.file.length := Nat.div_mul_le_self _ _
    refine ⟨?_, ?_, ?_⟩
    · simp [executeParsed, BlockDevice.sizeInBlocks, BlockDevice.readBlocks,
            hdiv, Nat.not_lt.mpr hge, hrange]
    · simp [writeAll, initSink]
    · have hdroplen : (dev.file.drop (lba * dev.blockSize)).length =
          dev.file.length - lba * dev.blockSize := List.length_drop _ _
      rw [List.length_take, hdroplen]
      have : lba * dev.blockSize + len * dev.blockSize ≤ dev.file.length := by
        calc lba * dev.blockSize + len * dev.blockSize =
              (lba + len) * dev.blockSize := by ring
          _ ≤ dev.file.length := hrange
      omega

/-- Witness for C6: a two-block device with one-byte blocks, read in
range (`lba = 1`, one block) and out of range (`lba = 1`, two blocks). -/
theorem read10_range_check_witness :
    (executeParsed trivEnv ⟨[10, 20], 1, false, false⟩ []
        ⟨.read10 false false 1 0 1, none, false⟩ =
      .ok (CmdOutput.ok, writeAll (initSink none) (([10, 20].drop 1).take 1)) ∧
     (writeAll (initSink none) (([10, 20].drop 1).take 1)).streamed =
       ([10, 20].drop 1).take 1 ∧
     (([10, 20].drop 1).take 1).length = 1) ∧
    (executeParsed trivEnv ⟨[10, 20], 1, false, false⟩ []
        ⟨.read10 false false 1 0 2, none, false⟩ =
      .ok (CmdOutput.checkCondition LOGICAL_BLOCK_ADDRESS_OUT_OF_RANGE,
           initSink none) ∧
     (initSink none).streamed = [] ∧ (initSink none).out = []) := by
  constructor
  · have h := (read10_range_check trivEnv ⟨[10, 20], 1, false, false⟩ []
      false false false 1 1 none (by decide)).2 (by decide)
    simpa using h
  · have h := (read10_range_check trivEnv ⟨[10, 20], 1, false, false⟩ []
      false false false 1 2 none (by decide)).1 (by decide)
    simpa using h

/-- Every `CmdOutput` the command dispatch produces is built by
`CmdOutput::ok()` or `CmdOutput::check_condition(…)`. -/
theorem executeParsed_output (env : ExecEnv) (dev : BlockDevice)
    (luns : List Nat) (cdb : ParsedCdb) (out : CmdOutput) (st : WriteState)
    (h : executeParsed env dev luns cdb = .ok (out, st)) :
    out = CmdOutput.ok ∨ ∃ t : SenseTriple, out = CmdOutput.checkCondition t := by
  obtain ⟨cmd, alloc, naca⟩ := cdb
  cases cmd <;> simp only [executeParsed] at h <;> (repeat' split at h) <;>
    first
    | exact Except.noConfusion h
    | (injection h with h1
       injection h1 with ha _
       exact Or.inl ha.symm)
    | (injection h with h1
       injection h1 with ha _
       exact Or.inr ⟨_, ha.symm⟩)

/-- C8: every `CmdOutput` produced by `execute_command` carries either
an empty sense (GOOD status via `ok()`) or exactly the 18-byte
fixed-format encoding of a sense triple — byte 0 is `0x70`, byte 2 the
sense key, byte 7 the additional length `0x0a`, bytes 12 and 13 the ASC
and ASCQ — and in both cases `sense.len() < 96` (`SENSE_SIZE`). -/
theorem cmdOutput_sense_shape (env : ExecEnv) (dev : BlockDevice)
    (luns : List Nat) (pr : Except ParseError ParsedCdb) (out : CmdOutput)
    (st : WriteState) (h : executeCommand env dev luns pr = .ok (out, st)) :
    (out.sense = [] ∨ ∃ t : SenseTriple, out.sense = t.toFixedSense) ∧
    (∀ t : SenseTriple, t.toFixedSense.length = 18 ∧
       t.toFixedSense.getD 0 99 = 0x70 ∧
       t.toFixedSense.getD 2 99 = t.key ∧
       t.toFixedSense.getD 7 99 = 0x0a ∧
       t.toFixedSense.getD 12 99 = t.asc ∧
       t.toFixedSense.getD 13 99 = t.ascq) ∧
    out.sense.length < 96 := by
  have hshape : out = CmdOutput.ok ∨
      ∃ t : SenseTriple, out = CmdOutput.checkCondition t := by
    rcases pr with e | cdb <;> simp only [executeCommand] at h
    · injection h with h1
      injection h1 with ha _
      cases e
      · exact Or.inr ⟨_, ha.symm⟩
      · exact Or.inr ⟨_, ha.symm⟩
    · by_cases hn : cdb.naca = true
      · rw [if_pos hn] at h
        exact Except.noConfusion h
      · rw [if_neg hn] at h
        exact executeParsed_output env dev luns cdb out st h
  have hfix : ∀ t : SenseTriple, t.toFixedSense.length = 18 ∧
      t.toFixedSense.getD 0 99 = 0x70 ∧
      t.toFixedSense.getD 2 99 = t.key ∧
      t.toFixedSense.getD 7 99 = 0x0a ∧
      t.toFixedSense.getD 12 99 = t.asc ∧
      t.toFixedSense.getD 13 99 = t.ascq := by
    intro t
    simp [SenseTriple.toFixedSense]
  refine ⟨?_, hfix, ?_⟩
  · rcases hshape with hok | ⟨t, hcc⟩
    · exact Or.inl (by rw [hok]; rfl)
    · exact Or.inr ⟨t, by rw [hcc]; rfl⟩
  · rcases hshape with hok | ⟨t, hcc⟩
    · rw [hok]
      decide
    · rw [hcc]
      have := (hfix t).1
      simp [CmdOutput.checkCondition]
      omega

/-- Witness for C8: TEST UNIT READY on an empty device produces
`CmdOutput::ok()`, whose sense is empty and shorter than `SENSE_SIZE`. -/
theorem cmdOutput_sense_shape_witness :
    CmdOutput.ok.sense.length < 96 ∧ CmdOutput.ok.sense = [] :=
  ⟨(cmdOutput_sense_shape trivEnv ⟨[], 1, false, false⟩ []
      (.ok ⟨.testUnitReady, none, false⟩) CmdOutput.ok (initSink none)
      rfl).2.2,
   rfl⟩

/-- A cursor freshly positioned on descriptor `d` with `rest` to come
has `d + rest.sum` bytes of space. -/
theorem residualLoop_cons (rest : List Nat) : ∀ d : Nat,
    residualLoop (some d) rest 0 = d + rest.sum := by
  induction rest with
  | nil => intro d; simp [residualLoop]
  | cons h t ih =>
      intro d
      simp only [residualLoop, ih, List.sum_cons]
      omega

/-- A fresh cursor's space is the total length of the writable
descriptors. -/
theorem residualLoop_new (ds : List Nat) :
    residualLoop (DCWriter.new ds).current (DCWriter.new ds).iter 0 =
      ds.sum := by
  cases ds with
  | nil => simp [DCWriter.new, residualLoop]
  | cons d rest => simpa [DCWriter.new] using residualLoop_cons rest d

/-- The skip loop consumes exactly the offset it was handed, as long as
that offset fits in the remaining space. -/
theorem skipLoop_residual (it : List Nat) : ∀ (cur : Option Nat) (off : Nat),
    off ≤ residualLoop cur it 0 →
    residualLoop (skipLoop cur it off).1 (skipLoop cur it off).2.1
        (skipLoop cur it off).2.2 =
      residualLoop cur it 0 - off := by
  induction it with
  | nil =>
      intro cur off hle
      cases cur with
      | none =>
          simp only [residualLoop, Nat.le_zero] at hle
          simp [skipLoop, residualLoop, hle]
      | some l =>
          simp only [residualLoop, Nat.sub_zero] at hle
          by_cases hc : l ≤ off
          · simp [skipLoop, hc, residualLoop]
          · simp only [skipLoop, hc, if_false, residualLoop]
            omega
  | cons hd t ih =>
      intro cur off hle
      cases cur with
      | none =>
          simp only [residualLoop, Nat.le_zero] at hle
          simp [skipLoop, residualLoop, hle]
      | some l =>
          have htot : residualLoop (some l) (hd :: t) 0 =
              l + residualLoop (some hd) t 0 := by
            simp [residualLoop]
          by_cases hc : l ≤ off
          · have hstep : skipLoop (some l) (hd :: t) off =
                skipLoop (some hd) t (off - l) := by
              simp [skipLoop, hc]
            have hle2 : off - l ≤ residualLoop (some hd) t 0 := by
              rw [htot] at hle
              omega
            rw [hstep, ih (some hd) (off - l) hle2, htot]
            omega
          · have hstep : skipLoop (some l) (hd :: t) off =
                (some l, hd :: t, off) := by
              simp [skipLoop, hc]
            rw [hstep, htot]
            simp only [residualLoop]
            omega

/-- Appending a clone raises the family's maximum to at least the
clone's counter. -/
theorem maxWritten_append (ws : List DCWriter) (w : DCWriter) :
    maxWritten (ws ++ [w]) = max (maxWritten ws) w.written := by
  induction ws with
  | nil =>
      show max w.written 0 = max 0 w.written
      omega
  | cons w0 t ih =>
      show max w0.written (maxWritten (t ++ [w])) =
        max (max w0.written (maxWritten t)) w.written
      rw [ih]
      omega

/-- A cursor in the family counts no more than the family's maximum. -/
theorem written_le_maxWritten (ws : List DCWriter) : ∀ (i : Nat) (w : DCWriter),
    ws[i]? = some w → w.written ≤ maxWritten ws := by
  induction ws with
  | nil => intro i w h; simp at h
  | cons w0 t ih =>
      intro i w h
      have hfold : maxWritten (w0 :: t) = max w0.written (maxWritten t) := rfl
      cases i with
      | zero =>
          simp only [List.getElem?_cons_zero] at h
          injection h with h
          subst h
          rw [hfold]
          omega
      | succ j =>
          simp only [List.getElem?_cons_succ] at h
          have h2 := ih j w h
          rw [hfold]
          omega

/-- Replacing a cursor by one with a larger counter updates the
family's maximum accordingly. -/
theorem maxWritten_set (ws : List DCWriter) : ∀ (i : Nat) (w w' : DCWriter),
    ws[i]? = some w → w.written ≤ w'.written →
    maxWritten (ws.set i w') = max (maxWritten ws) w'.written := by
  induction ws with
  | nil => intro i w w' h _; simp at h
  | cons w0 t ih =>
      intro i w w' h hle
      cases i with
      | zero =>
          simp only [List.getElem?_cons_zero] at h
          injection h with h
          subst h
          show max w'.written (maxWritten t) =
            max (max w0.written (maxWritten t)) w'.written
          omega
      | succ j =>
          simp only [List.getElem?_cons_succ] at h
          show max w0.written (maxWritten (t.set j w')) =
            max (max w0.written (maxWritten t)) w'.written
          rw [ih j w w' h hle]
          omega

/-- Each operation keeps the shared cell equal to the family's largest
counter. -/
theorem DCSystem.step_cell (s : DCSystem) (op : DCOp)
    (hinv : s.cell = maxWritten s.writers) :
    (s.step op).cell = maxWritten (s.step op).writers := by
  cases op with
  | clone i =>
      cases hget : s.writers[i]? with
      | none => simpa [DCSystem.step, hget] using hinv
      | some w =>
          simp only [DCSystem.step, hget]
          rw [maxWritten_append]
          have hle := written_le_maxWritten s.writers i w hget
          rw [hinv]
          omega
  | skip i n =>
      cases hget : s.writers[i]? with
      | none => simpa [DCSystem.step, hget] using hinv
      | some w =>
          simp only [DCSystem.step, hget]
          have hw : (w.skipApply n).written = w.written + n := rfl
          rw [maxWritten_set s.writers i w _ hget (by rw [hw]; omega), hw, hinv]
  | write i n =>
      cases hget : s.writers[i]? with
      | none => simpa [DCSystem.step, hget] using hinv
      | some w =>
          cases hcur : w.current with
          | none =>
              have happ : (w.writeApply n).1 = w := by
                simp [DCWriter.writeApply, hcur]
              simp only [DCSystem.step, hget, hcur, happ]
              rw [maxWritten_set s.writers i w w hget (Nat.le_refl _), hinv]
              have hle := written_le_maxWritten s.writers i w hget
              omega
          | some l =>
              have happ : (w.writeApply n).1.written =
                  w.written + (w.writeApply n).2 := by
                simp only [DCWriter.writeApply, hcur]
                split <;> rfl
              simp only [DCSystem.step, hget, hcur]
              rw [maxWritten_set s.writers i w _ hget (by rw [happ]; omega),
                  happ, hinv]

/-- Any operation sequence keeps the cell equal to the family's largest
counter. -/
theorem foldl_step_cell (ops : List DCOp) : ∀ s : DCSystem,
    s.cell = maxWritten s.writers →
    (ops.foldl DCSystem.step s).cell =
      maxWritten (ops.foldl DCSystem.step s).writers := by
  induction ops with
  | nil => intro s hs; exact hs
  | cons op rest ih => intro s hs; exact ih _ (DCSystem.step_cell s op hs)

/-- C9: a fresh write cursor over writable descriptors totalling
`ds.sum` bytes returns `ds.sum - n` from `residual()` after `skip(n)`
(for `n ≤ ds.sum`); and after any interleaving of clones, skips and
writes, the shared `max_written` cell equals the largest cumulative
written-plus-skipped counter among the cursors. -/
theorem descriptor_writer_skip_residual_and_high_water (ds : List Nat)
    (n : Nat) (ops : List DCOp) (h : n ≤ ds.sum) :
    ((DCWriter.new ds).skipApply n).residualVal = ds.sum - n ∧
    (DCSystem.run ds ops).cell = maxWritten (DCSystem.run ds ops).writers := by
  constructor
  · have hle : n ≤ residualLoop (DCWriter.new ds).current
        (DCWriter.new ds).iter 0 := by
      rw [residualLoop_new]
      exact h
    have hz : (DCWriter.new ds).offset + n = n := by
      cases ds <;> simp [DCWriter.new]
    have hres := skipLoop_residual (DCWriter.new ds).iter
      (DCWriter.new ds).current n hle
    simp only [DCWriter.skipApply, DCWriter.residualVal, hz]
    rw [hres, residualLoop_new]
  · exact foldl_step_cell ops _ (by cases ds <;> rfl)

/-- Witness for C9: two descriptors of 100 and 8 bytes, a skip of 5,
and the framer's op pattern (skip the header space on a clone, then
write through it). -/
theorem descriptor_writer_skip_residual_and_high_water_witness :
    ((DCWriter.new [100, 8]).skipApply 5).residualVal = [100, 8].sum - 5 ∧
    (DCSystem.run [100, 8] [.clone 0, .skip 1 12, .write 1 30]).cell =
      maxWritten (DCSystem.run [100, 8] [.clone 0, .skip 1 12, .write 1 30]).writers :=
  descriptor_writer_skip_residual_and_high_water [100, 8] 5
    [.clone 0, .skip 1 12, .write 1 30] (by decide)

/-- Witness for C1 at the table's first entry. -/
theorem requestSense_readCapacity10_read10_unparsed_witness :
    (CommandType.testUnitReady, 0x0, (none : Option Nat)).2.1 ≠ 0x03 ∧
    (CommandType.testUnitReady, 0x0, (none : Option Nat)).2.1 ≠ 0x25 ∧
    (CommandType.testUnitReady, 0x0, (none : Option Nat)).2.1 ≠ 0x28 :=
  requestSense_readCapacity10_read10_unparsed.2.2.2
    (CommandType.testUnitReady, 0x0, none) (by decide)

/-- Witness for C10: the all-zero LUN field is neither pattern, so
parse returns `None`. -/
theorem virtioScsiLun_parse_panics_witness :
    VirtioScsiLun.parse [0, 0, 0, 0, 0, 0, 0, 0] = .returns none :=
  (virtioScsiLun_parse_panics.2 [0, 0, 0, 0, 0, 0, 0, 0]).mpr
    ⟨by decide, by decide⟩
